import Mathlib

/-!
Shallow embedding of `src/plugins/auth-backend/src/providers/oauth2/provider.ts`
(Backstage OAuth2 auth provider) and proofs of its specified properties.

JavaScript strings are modelled as Lean `String`; optional / possibly-`undefined`
values as `Option`; thrown errors as `Except AuthError`.  External collaborators
(the passport strategy helpers, the config reader) that live outside `src/` are
modelled from the spec, each marked `Modelled from the spec:` in its doc comment.
-/

namespace Backstage

/-- Error kinds of the core, per the spec taxonomy (§7).  The source throws
plain JS `Error` values; the spec names the kinds, and the kind raised by
`populateIdentity` (source message: "Profile does not contain a profile") is
`identityResolutionError`. -/
inductive AuthError where
  | exchangeError
  | refreshError
  | profileFetchError
  | identityResolutionError
  | configError (key : String)
deriving Repr, DecidableEq

/-- ProfileInfo: normalized profile, `{email?, displayName?, picture?}`. -/
structure ProfileInfo where
  email : Option String
  displayName : Option String
  picture : Option String
deriving Repr, DecidableEq

/-- ProviderInfo: `{idToken?, accessToken, scope, expiresInSeconds}` as built by
the verify callback from the token-endpoint params. -/
structure ProviderInfo where
  idToken : Option String
  accessToken : String
  scope : Option String
  expiresInSeconds : Option Nat
deriving Repr, DecidableEq

/-- BackstageIdentity: the resolved internal identity `{id}`. -/
structure BackstageIdentity where
  id : String
deriving Repr, DecidableEq

/-- OAuthResponse: `{providerInfo, profile, backstageIdentity?}`. -/
structure OAuthResponse where
  providerInfo : ProviderInfo
  profile : ProfileInfo
  backstageIdentity : Option BackstageIdentity := none
deriving Repr, DecidableEq

/-- PrivateInfo: `{refreshToken}`.  The TS type says `string` but the runtime
value is whatever the token endpoint returned, possibly `undefined`, so it is
modelled as `Option String`. -/
structure PrivateInfo where
  refreshToken : Option String
deriving Repr, DecidableEq

/-- Raw third-party profile as returned by the user-info endpoint of the provider;
the fields the spec says `makeProfileInfo` extracts. -/
structure RawProfile where
  email : Option String
  displayName : Option String
  picture : Option String
deriving Repr, DecidableEq

/-- Token-endpoint response body (`params` in the verify callback): at least
`access_token` (carried separately), optionally `refresh_token`, `id_token`,
`expires_in`, `scope` (spec §6). -/
structure TokenParams where
  id_token : Option String
  scope : Option String
  expires_in : Option Nat
  refresh_token : Option String
deriving Repr, DecidableEq

/-- RedirectInfo: `{url, status?}`, output of `start`. -/
structure RedirectInfo where
  url : String
  status : Option Nat
deriving Repr, DecidableEq

/-- OAuth2AuthProviderOptions: clientId, clientSecret, callbackUrl plus the
OAuth2-specific authorizationUrl and tokenUrl. -/
structure OAuth2AuthProviderOptions where
  clientId : String
  clientSecret : String
  callbackUrl : String
  authorizationUrl : String
  tokenUrl : String
deriving Repr, DecidableEq

/-- JS `String.prototype.split` with a single-character separator, on the
character list of the string.  `"".split(sep)` is `[""]`; a string with no
separator yields itself as the single element. -/
def jsSplit (sep : Char) : List Char → List (List Char)
  | [] => [[]]
  | c :: cs =>
    if c = sep then [] :: jsSplit sep cs
    else
      match jsSplit sep cs with
      | [] => [[c]]
      | w :: ws => (c :: w) :: ws

/-- populateIdentity (source lines 141-153): fails when `profile.email` is
absent or empty (JS `!profile.email`), otherwise adds
`backstageIdentity = {id: email.split("@")[0]}` and keeps the rest of the
response. -/
def populateIdentity (response : OAuthResponse) : Except AuthError OAuthResponse :=
  match response.profile.email with
  | none => .error .identityResolutionError
  | some email =>
    if email = "" then .error .identityResolutionError
    else
      let id : String := ((jsSplit '@' email.data).headD []).asString
      .ok { response with backstageIdentity := some { id := id } }

/-- Spec-side description of the resolved id: the substring of the email
before the first `@` character (the whole email when it has no `@`). -/
def emailLocalPart (email : String) : String :=
  (email.data.takeWhile (fun c => c ≠ '@')).asString

/-- Caller-supplied options and URL query parameters: key-value pairs.  A JS
object literal is a finite map; the list model gives later entries precedence
(see `jsGet`), which matches object-spread overriding. -/
def Params : Type := List (String × String)

/-- Effective value of a key in a parameter list, later entries winning —
the lookup a JS object spread induces. -/
def jsGet : List (String × String) → String → Option String
  | [], _ => none
  | p :: rest, k =>
    match jsGet rest k with
    | some v => some v
    | none => if p.1 = k then some p.2 else none

/-- providerOptions built by start (source lines 93-97):
`{...options, accessType: "offline", prompt: "consent"}` — the fixed entries
come after the spread, so they override caller entries of the same name. -/
def providerOptions (options : List (String × String)) : List (String × String) :=
  options ++ [("accessType", "offline"), ("prompt", "consent")]

/-- Wire name of a strategy option: the camelCase `accessType` option is sent
as the `access_type` query parameter; other option names are already wire
names (spec §6 lists the outbound parameter names). -/
def wireKey (k : String) : String :=
  if k = "accessType" then "access_type" else k

/-- Modelled from the spec: `executeRedirectStrategy` (in
`lib/PassportStrategyHelper`, outside `src/`) builds the authorization-server
URL with `client_id`, `redirect_uri`, `response_type=code` and the supplied
options as query parameters (spec §4.1, §6).  This gives the parameter list. -/
def redirectParams (opts : OAuth2AuthProviderOptions)
    (merged : List (String × String)) : List (String × String) :=
  [("client_id", opts.clientId), ("redirect_uri", opts.callbackUrl),
    ("response_type", "code")]
    ++ merged.map (fun p => (wireKey p.1, p.2))

/-- Query-string serialization of a parameter list. -/
def serializeParams (ps : List (String × String)) : String :=
  String.intercalate "&" (ps.map (fun p => p.1 ++ "=" ++ p.2))

/-- Parameter list of the redirect produced by `start` for a given provider
configuration and caller options. -/
def startParams (opts : OAuth2AuthProviderOptions)
    (options : List (String × String)) : List (String × String) :=
  redirectParams opts (providerOptions options)

/-- start (source lines 89-99): merges the caller options with the fixed
`accessType=offline`, `prompt=consent` entries and delegates to
`executeRedirectStrategy`, returning the redirect target. -/
def start (opts : OAuth2AuthProviderOptions)
    (options : List (String × String)) : RedirectInfo :=
  { url := opts.authorizationUrl ++ "?" ++ serializeParams (startParams opts options),
    status := none }

/-- Modelled from the spec: `makeProfileInfo` (in `lib/PassportStrategyHelper`,
outside `src/`) extracts `email`, `displayName`, `picture` from the raw
third-party profile (plus decoded id-token claims; the id token is opaque
here, so only the raw-profile fields are extracted). -/
def makeProfileInfo (rawProfile : RawProfile) (_idToken : Option String) : ProfileInfo :=
  { email := rawProfile.email
    displayName := rawProfile.displayName
    picture := rawProfile.picture }

/-- Result of the authorization-code token exchange as delivered to the
verify callback: access token, optional refresh token, the full
token-endpoint params, and the fetched raw profile. -/
structure CodeExchangeResult where
  accessToken : String
  refreshToken : Option String
  params : TokenParams
  rawProfile : RawProfile
deriving Repr, DecidableEq

/-- Result of the refresh-token grant: access token plus the token-endpoint
params. -/
structure RefreshTokenResult where
  accessToken : String
  params : TokenParams
deriving Repr, DecidableEq

/-- Outcomes of the upstream provider endpoints for one transaction: what
the code exchange behind `executeFrameHandlerStrategy` yields, what the
refresh-token grant yields per (refreshToken, scope), and what the user-info
endpoint yields per (accessToken, idToken). -/
structure Upstream where
  codeExchange : Except AuthError CodeExchangeResult
  refreshTokenExchange : String → String → Except AuthError RefreshTokenResult
  userProfileFetch : String → Option String → Except AuthError RawProfile

/-- Verify callback passed to the OAuth2Strategy constructor (source lines
62-85): assembles the OAuthResponse from the token params and profile, and
the PrivateInfo carrying the refresh token. -/
def verifyCallback (accessToken : String) (refreshToken : Option String)
    (params : TokenParams) (rawProfile : RawProfile) :
    OAuthResponse × PrivateInfo :=
  let profile := makeProfileInfo rawProfile params.id_token
  ({ providerInfo :=
      { idToken := params.id_token
        accessToken := accessToken
        scope := params.scope
        expiresInSeconds := params.expires_in }
     profile := profile
     backstageIdentity := none },
   { refreshToken := refreshToken })

/-- Modelled from the spec: `executeFrameHandlerStrategy` (in
`lib/PassportStrategyHelper`, outside `src/`) runs the configured strategy and its
authorization-code exchange and profile fetch, then delivers the results
through the verify callback (source lines 62-85), yielding
`{response, privateInfo}`; it propagates exchange failure. -/
def executeFrameHandlerStrategy (u : Upstream) :
    Except AuthError (OAuthResponse × PrivateInfo) := do
  let r ← u.codeExchange
  .ok (verifyCallback r.accessToken r.refreshToken r.params r.rawProfile)

/-- Modelled from the spec: `executeRefreshTokenStrategy` (outside `src/`)
performs the refresh-token grant against the token endpoint. -/
def executeRefreshTokenStrategy (u : Upstream) (refreshToken scope : String) :
    Except AuthError RefreshTokenResult :=
  u.refreshTokenExchange refreshToken scope

/-- Modelled from the spec: `executeFetchUserProfileStrategy` (outside
`src/`) fetches the raw profile with a bearer token. -/
def executeFetchUserProfileStrategy (u : Upstream) (accessToken : String)
    (idToken : Option String) : Except AuthError RawProfile :=
  u.userProfileFetch accessToken idToken

/-- handler (source lines 101-113): runs the frame-handler strategy, populates
the identity on the response, and returns it together with the private
refresh token. -/
def handler (u : Upstream) :
    Except AuthError (OAuthResponse × Option String) := do
  let rp ← executeFrameHandlerStrategy u
  let resp ← populateIdentity rp.1
  .ok (resp, rp.2.refreshToken)

/-- refresh (source lines 115-137): refresh-token grant, then profile fetch
with the new access token, then identity population on a freshly assembled
response. -/
def refresh (u : Upstream) (refreshToken scope : String) :
    Except AuthError OAuthResponse := do
  let r ← executeRefreshTokenStrategy u refreshToken scope
  let rawProfile ← executeFetchUserProfileStrategy u r.accessToken r.params.id_token
  let profile := makeProfileInfo rawProfile r.params.id_token
  populateIdentity
    { providerInfo :=
        { accessToken := r.accessToken
          idToken := r.params.id_token
          expiresInSeconds := r.params.expires_in
          scope := r.params.scope }
      profile := profile
      backstageIdentity := none }

/-- Global auth provider configuration; only `baseUrl` is read by the factory. -/
structure AuthProviderConfig where
  baseUrl : String
deriving Repr, DecidableEq

/-- Per-provider environment configuration as a partial string map. -/
def ConfigMap : Type := String → Option String

/-- Modelled from the spec: `envConfig.getString(key)` (the `@backstage/config`
collaborator, outside `src/`) returns the string at `key` and fails with a
config error when the required field is missing (spec §4.4 fail-fast). -/
def getString (env : ConfigMap) (key : String) : Except AuthError String :=
  match env key with
  | some v => .ok v
  | none => .error (.configError key)

/-- createOAuth2Provider (source lines 156-183): reads `clientId`,
`clientSecret`, `authorizationUrl`, `tokenUrl` from the environment config,
computes the callback URL from the global base URL and the fixed provider id
`oauth2`, and constructs the provider with those options.  The final
registration step `OAuthProvider.fromConfig` is an external collaborator; the
observable result modelled here is the options the provider is built from.
The second string argument of the source function is ignored by it. -/
def createOAuth2Provider (config : AuthProviderConfig) (_env : String)
    (envConfig : ConfigMap) : Except AuthError OAuth2AuthProviderOptions := do
  let providerId := "oauth2"
  let clientId ← getString envConfig "clientId"
  let clientSecret ← getString envConfig "clientSecret"
  let callbackUrl := config.baseUrl ++ "/" ++ providerId ++ "/handler/frame"
  let authorizationUrl ← getString envConfig "authorizationUrl"
  let tokenUrl ← getString envConfig "tokenUrl"
  .ok { clientId := clientId
        clientSecret := clientSecret
        callbackUrl := callbackUrl
        authorizationUrl := authorizationUrl
        tokenUrl := tokenUrl }

/-- Email absent or empty: the profiles on which JS `!profile.email` holds. -/
def emailMissing (p : ProfileInfo) : Prop :=
  p.email = none ∨ p.email = some ""

/-- Upstream identical except that the params of the refresh-token grant carry a
different `refresh_token` value; used to state that `refresh` never reads it. -/
def withRefreshParamToken (u : Upstream) (x : Option String) : Upstream :=
  { u with refreshTokenExchange := fun tok scope =>
      (u.refreshTokenExchange tok scope).map fun r =>
        { r with params := { r.params with refresh_token := x } } }

/-- Upstream identical except that the code exchange delivers a different
refresh token; used to state that the OAuthResponse part of `handler` does
not depend on it. -/
def withCodeRefreshToken (u : Upstream) (x : Option String) : Upstream :=
  { u with codeExchange := u.codeExchange.map fun r => { r with refreshToken := x } }

/-- Provider configuration of spec Scenario A. -/
def scenarioAConfig : OAuth2AuthProviderOptions :=
  { clientId := "c1"
    clientSecret := "cs"
    callbackUrl := "https://backstage/oauth2/handler/frame"
    authorizationUrl := "https://idp/auth"
    tokenUrl := "https://idp/token" }

/-- Token-endpoint params of spec Scenario B:
`{access_token:"T", id_token:"I", expires_in:3600}` and nothing else. -/
def scenarioBParams : TokenParams :=
  { id_token := some "I", scope := none, expires_in := some 3600, refresh_token := none }

/-- Raw profile of spec Scenario B: `{email:"alice@example.com"}`. -/
def scenarioBRawProfile : RawProfile :=
  { email := some "alice@example.com", displayName := none, picture := none }

/-- Upstream of spec Scenario B: the code exchange yields access token `"T"`,
no refresh token, the Scenario B params and profile. -/
def scenarioBUpstream : Upstream :=
  { codeExchange := .ok
      { accessToken := "T"
        refreshToken := none
        params := scenarioBParams
        rawProfile := scenarioBRawProfile }
    refreshTokenExchange := fun _tok _scope => .error .refreshError
    userProfileFetch := fun _tok _id => .ok scenarioBRawProfile }

/-- Sample transaction used by witnesses: code exchange succeeds with refresh
token `"R"`, the refresh grant accepts `"R"` and yields access token `"T2"`,
and the profile endpoint returns the same profile both times. -/
def sampleUpstream : Upstream :=
  { codeExchange := .ok
      { accessToken := "T"
        refreshToken := some "R"
        params := scenarioBParams
        rawProfile := scenarioBRawProfile }
    refreshTokenExchange := fun tok _scope =>
      if tok = "R" then .ok { accessToken := "T2", params := scenarioBParams }
      else .error .refreshError
    userProfileFetch := fun _tok _id => .ok scenarioBRawProfile }

/-- Sample transaction whose profile has no email: like `sampleUpstream` but
both profile fetches return an email-less profile. -/
def noEmailUpstream : Upstream :=
  { codeExchange := .ok
      { accessToken := "T"
        refreshToken := some "R"
        params := scenarioBParams
        rawProfile := { email := none, displayName := none, picture := none } }
    refreshTokenExchange := fun tok _scope =>
      if tok = "R" then .ok { accessToken := "T2", params := scenarioBParams }
      else .error .refreshError
    userProfileFetch := fun _tok _id =>
      .ok { email := none, displayName := none, picture := none } }

/-- Sample OAuthResponse whose profile carries the Scenario B email. -/
def sampleResponse : OAuthResponse :=
  { providerInfo :=
      { idToken := some "I", accessToken := "T", scope := some "read",
        expiresInSeconds := some 3600 }
    profile :=
      { email := some "alice@example.com", displayName := none, picture := none }
    backstageIdentity := none }

/-- Handler response of the `sampleUpstream` transaction. -/
def sampleHandlerResponse : OAuthResponse :=
  { providerInfo := { idToken := some "I", accessToken := "T", scope := none,
                      expiresInSeconds := some 3600 }
    profile := { email := some "alice@example.com", displayName := none,
                 picture := none }
    backstageIdentity := some { id := "alice" } }

/-- Sample per-provider environment configuration holding the four required
fields. -/
def sampleEnvConfig : ConfigMap := fun key =>
  if key = "clientId" then some "c1"
  else if key = "clientSecret" then some "cs"
  else if key = "authorizationUrl" then some "https://idp/auth"
  else if key = "tokenUrl" then some "https://idp/token"
  else none

theorem jsSplit_ne_nil (sep : Char) (l : List Char) : jsSplit sep l ≠ [] := by
  cases l with
  | nil => simp [jsSplit]
  | cons c cs =>
    simp only [jsSplit]
    split
    · simp
    · split
      · simp
      · simp

theorem jsSplit_headD (sep : Char) (l : List Char) :
    (jsSplit sep l).headD [] = l.takeWhile (fun c => c ≠ sep) := by
  induction l with
  | nil => simp [jsSplit]
  | cons c cs ih =>
    simp only [jsSplit, List.takeWhile]
    by_cases h : c = sep
    · simp [h]
    · simp only [if_neg h, decide_eq_true_eq]
      have hne := jsSplit_ne_nil sep cs
      cases hx : jsSplit sep cs with
      | nil => exact absurd hx hne
      | cons w ws =>
        simp only [hx, List.headD_cons] at ih
        simp [h, ih]

theorem populateIdentity_ok (r : OAuthResponse) (e : String)
    (he : r.profile.email = some e) (hne : e ≠ "") :
    populateIdentity r =
      .ok { r with backstageIdentity := some { id := emailLocalPart e } } := by
  unfold populateIdentity
  rw [he]
  simp only [if_neg hne]
  have hid : ((jsSplit '@' e.data).headD []).asString = emailLocalPart e := by
    rw [jsSplit_headD, emailLocalPart]
  rw [hid]

theorem populateIdentity_error (r : OAuthResponse) (h : emailMissing r.profile) :
    populateIdentity r = .error .identityResolutionError := by
  unfold populateIdentity
  rcases h with h | h
  · rw [h]
  · rw [h]; simp

theorem populateIdentity_inv {x y : OAuthResponse}
    (h : populateIdentity x = .ok y) :
    y.providerInfo = x.providerInfo ∧ y.profile = x.profile ∧
      ∃ e, x.profile.email = some e ∧ e ≠ "" ∧
        y = { x with backstageIdentity := some { id := emailLocalPart e } } := by
  cases hx : x.profile.email with
  | none =>
    rw [populateIdentity_error x (Or.inl hx)] at h
    exact absurd h (by simp)
  | some e =>
    by_cases hne : e = ""
    · rw [populateIdentity_error x (Or.inr (hne ▸ hx))] at h
      exact absurd h (by simp)
    · rw [populateIdentity_ok x e hx hne] at h
      have hy := Except.ok.inj h
      exact ⟨by rw [← hy], by rw [← hy], e, rfl, hne, hy.symm⟩

/-- C1: for every profile with a non-empty email, identity resolution
(`populateIdentity`) is a pure, deterministic function of the email: it
succeeds, the added `backstageIdentity.id` equals the substring of the email
before the first `@`, and any response carrying the same email resolves to
the same identity. -/
theorem populateIdentity_deterministic_localPart (r : OAuthResponse) (e : String)
    (he : r.profile.email = some e) (hne : e ≠ "") :
    populateIdentity r =
        .ok { r with backstageIdentity := some { id := emailLocalPart e } }
      ∧ ∀ r₂ : OAuthResponse, r₂.profile.email = r.profile.email →
          (populateIdentity r₂).map (fun x => x.backstageIdentity)
            = .ok (some { id := emailLocalPart e }) := by
  refine ⟨populateIdentity_ok r e he hne, ?_⟩
  intro r₂ h₂
  rw [he] at h₂
  rw [populateIdentity_ok r₂ e h₂ hne]
  rfl

/-- Witness for C1 at the Scenario B email. -/
theorem populateIdentity_deterministic_localPart_witness :
    populateIdentity sampleResponse =
        .ok { sampleResponse with
          backstageIdentity := some { id := emailLocalPart "alice@example.com" } }
      ∧ ∀ r₂ : OAuthResponse, r₂.profile.email = sampleResponse.profile.email →
          (populateIdentity r₂).map (fun x => x.backstageIdentity)
            = .ok (some { id := emailLocalPart "alice@example.com" }) :=
  populateIdentity_deterministic_localPart sampleResponse "alice@example.com"
    rfl (by decide)

/-- C10: for every profile whose email is non-empty but contains no `@`,
identity resolution succeeds and the id is the whole email. -/
theorem populateIdentity_no_at_sign (r : OAuthResponse) (e : String)
    (he : r.profile.email = some e) (hne : e ≠ "") (hno : '@' ∉ e.data) :
    populateIdentity r = .ok { r with backstageIdentity := some { id := e } } := by
  have hl : emailLocalPart e = e := by
    unfold emailLocalPart
    have : e.data.takeWhile (fun c => c ≠ '@') = e.data := by
      apply List.takeWhile_eq_self_iff.mpr
      intro c hc
      simp only [decide_eq_true_eq]
      intro hcq
      exact hno (hcq ▸ hc)
    rw [this]
    cases e
    rfl
  rw [populateIdentity_ok r e he hne, hl]

/-- Witness for C10 at the at-sign-free email `"alice"`. -/
theorem populateIdentity_no_at_sign_witness :
    populateIdentity
        { sampleResponse with profile :=
            { email := some "alice", displayName := none, picture := none } }
      = .ok { sampleResponse with
          profile := { email := some "alice", displayName := none, picture := none }
          backstageIdentity := some { id := "alice" } } :=
  populateIdentity_no_at_sign
    { sampleResponse with profile :=
        { email := some "alice", displayName := none, picture := none } }
    "alice" rfl (by decide) (by decide)

theorem exceptBind_ok {ε α β : Type} (a : α) (f : α → Except ε β) :
    (Except.ok a : Except ε α) >>= f = f a := rfl

theorem exceptBind_error {ε α β : Type} (e : ε) (f : α → Except ε β) :
    (Except.error e : Except ε α) >>= f = .error e := rfl

/-- C3: for every raw profile whose email is absent or empty, both `handler`
and `refresh` fail with the identity-resolution error, and no OAuthResponse
with a populated backstageIdentity is produced. -/
theorem handler_refresh_missing_email (u : Upstream) :
    (∀ r, u.codeExchange = .ok r →
        emailMissing (makeProfileInfo r.rawProfile r.params.id_token) →
        handler u = .error .identityResolutionError ∧ ∀ p, handler u ≠ .ok p)
    ∧ ∀ refreshToken scope rr raw,
        u.refreshTokenExchange refreshToken scope = .ok rr →
        u.userProfileFetch rr.accessToken rr.params.id_token = .ok raw →
        emailMissing (makeProfileInfo raw rr.params.id_token) →
        refresh u refreshToken scope = .error .identityResolutionError ∧
          ∀ resp, refresh u refreshToken scope ≠ .ok resp := by
  constructor
  · intro r hx hm
    have hh : handler u = .error .identityResolutionError := by
      unfold handler executeFrameHandlerStrategy
      rw [hx]
      simp only [exceptBind_ok]
      have hm' : emailMissing
          (verifyCallback r.accessToken r.refreshToken r.params r.rawProfile).1.profile := hm
      rw [populateIdentity_error _ hm']
      rfl
    exact ⟨hh, fun p hp => by rw [hh] at hp; exact absurd hp (by simp)⟩
  · intro refreshToken scope rr raw hr hp hm
    have hh : refresh u refreshToken scope = .error .identityResolutionError := by
      unfold refresh executeRefreshTokenStrategy executeFetchUserProfileStrategy
      rw [hr]
      simp only [exceptBind_ok]
      rw [hp]
      simp only [exceptBind_ok]
      exact populateIdentity_error _ hm
    exact ⟨hh, fun resp hq => by rw [hh] at hq; exact absurd hq (by simp)⟩

/-- Witness for C3 at a transaction whose profile lacks an email. -/
theorem handler_refresh_missing_email_witness :
    handler noEmailUpstream = .error .identityResolutionError ∧
      refresh noEmailUpstream "R" "read" = .error .identityResolutionError := by
  have h := handler_refresh_missing_email noEmailUpstream
  refine ⟨(h.1 _ rfl (Or.inl rfl)).1, ?_⟩
  exact (h.2 "R" "read" { accessToken := "T2", params := scenarioBParams }
    { email := none, displayName := none, picture := none }
    rfl rfl (Or.inl rfl)).1

/-- C9: when the token endpoint response omits the refresh token, `handler`
still succeeds on a resolvable profile and returns the absent value as its
refresh-token component. -/
theorem handler_absent_refresh_token (u : Upstream) (r : CodeExchangeResult)
    (e : String) (hx : u.codeExchange = .ok r) (hn : r.refreshToken = none)
    (he : r.rawProfile.email = some e) (hne : e ≠ "") :
    ∃ resp, handler u = .ok (resp, none) := by
  unfold handler executeFrameHandlerStrategy
  rw [hx]
  simp only [exceptBind_ok]
  have hresp : (verifyCallback r.accessToken r.refreshToken r.params
      r.rawProfile).1.profile.email = some e := he
  rw [populateIdentity_ok _ e hresp hne]
  simp only [exceptBind_ok]
  have hpriv : (verifyCallback r.accessToken r.refreshToken r.params
      r.rawProfile).2.refreshToken = none := hn
  rw [hpriv]
  exact ⟨_, rfl⟩

/-- Witness for C9 at the Scenario B transaction (whose token response
carries no refresh token). -/
theorem handler_absent_refresh_token_witness :
    ∃ resp, handler scenarioBUpstream = .ok (resp, none) :=
  handler_absent_refresh_token scenarioBUpstream
    { accessToken := "T", refreshToken := none, params := scenarioBParams,
      rawProfile := scenarioBRawProfile }
    "alice@example.com" rfl rfl rfl (by decide)

/-- C6: in spec Scenario B the handler result resolves the identity to
`alice` and passes the token fields through: accessToken `T`, idToken `I`,
expiresInSeconds 3600 (and no refresh token was supplied, so the refresh-token
component is absent). -/
theorem handler_scenarioB :
    handler scenarioBUpstream = .ok
      ({ providerInfo := { idToken := some "I", accessToken := "T", scope := none,
                           expiresInSeconds := some 3600 }
         profile := { email := some "alice@example.com", displayName := none,
                      picture := none }
         backstageIdentity := some { id := "alice" } }, none) := by
  rfl

/-- C8: `populateIdentity` only adds the backstageIdentity field — the
providerInfo and profile of its result are exactly those of its input — and
consequently `handler` and `refresh` pass the adapter-produced providerInfo
and profile through unmodified. -/
theorem populateIdentity_frame (r : OAuthResponse) (e : String)
    (he : r.profile.email = some e) (hne : e ≠ "") :
    (∃ r', populateIdentity r = .ok r' ∧ r'.providerInfo = r.providerInfo ∧
        r'.profile = r.profile)
    ∧ (∀ u resp rt, handler u = .ok (resp, rt) →
        ∃ cr, u.codeExchange = .ok cr ∧
          resp.providerInfo =
            { idToken := cr.params.id_token, accessToken := cr.accessToken,
              scope := cr.params.scope, expiresInSeconds := cr.params.expires_in } ∧
          resp.profile = makeProfileInfo cr.rawProfile cr.params.id_token)
    ∧ (∀ u tok scope resp, refresh u tok scope = .ok resp →
        ∃ rr raw, u.refreshTokenExchange tok scope = .ok rr ∧
          u.userProfileFetch rr.accessToken rr.params.id_token = .ok raw ∧
          resp.providerInfo =
            { accessToken := rr.accessToken, idToken := rr.params.id_token,
              expiresInSeconds := rr.params.expires_in, scope := rr.params.scope } ∧
          resp.profile = makeProfileInfo raw rr.params.id_token) := by
  refine ⟨⟨_, populateIdentity_ok r e he hne, rfl, rfl⟩, ?_, ?_⟩
  · intro u resp rt h
    cases hx : u.codeExchange with
    | error err =>
      have hh : handler u = .error err := by
        unfold handler executeFrameHandlerStrategy
        rw [hx]
        rfl
      rw [hh] at h
      exact absurd h (by simp)
    | ok cr =>
      refine ⟨cr, rfl, ?_⟩
      cases hps : populateIdentity
          (verifyCallback cr.accessToken cr.refreshToken cr.params cr.rawProfile).1 with
      | error err =>
        have hh : handler u = .error err := by
          unfold handler executeFrameHandlerStrategy
          rw [hx]
          simp only [exceptBind_ok]
          rw [hps]
          rfl
        rw [hh] at h
        exact absurd h (by simp)
      | ok R =>
        have hh : handler u = .ok (R, cr.refreshToken) := by
          unfold handler executeFrameHandlerStrategy
          rw [hx]
          simp only [exceptBind_ok]
          rw [hps]
          rfl
        rw [hh] at h
        have hpair : R = resp ∧ cr.refreshToken = rt := by
          have := Except.ok.inj h
          exact ⟨congrArg Prod.fst this, congrArg Prod.snd this⟩
        obtain ⟨hpi, hpr, _⟩ := populateIdentity_inv hps
        rw [← hpair.1]
        exact ⟨hpi.trans rfl, hpr.trans rfl⟩
  · intro u tok scope resp h
    cases hr : u.refreshTokenExchange tok scope with
    | error err =>
      have hh : refresh u tok scope = .error err := by
        unfold refresh executeRefreshTokenStrategy executeFetchUserProfileStrategy
        rw [hr]
        rfl
      rw [hh] at h
      exact absurd h (by simp)
    | ok rr =>
      cases hp : u.userProfileFetch rr.accessToken rr.params.id_token with
      | error err =>
        have hh : refresh u tok scope = .error err := by
          unfold refresh executeRefreshTokenStrategy executeFetchUserProfileStrategy
          rw [hr]
          simp only [exceptBind_ok]
          rw [hp]
          rfl
        rw [hh] at h
        exact absurd h (by simp)
      | ok raw =>
        refine ⟨rr, raw, rfl, hp, ?_⟩
        have hh : refresh u tok scope = populateIdentity
            { providerInfo :=
                { accessToken := rr.accessToken, idToken := rr.params.id_token,
                  expiresInSeconds := rr.params.expires_in, scope := rr.params.scope }
              profile := makeProfileInfo raw rr.params.id_token
              backstageIdentity := none } := by
          unfold refresh executeRefreshTokenStrategy executeFetchUserProfileStrategy
          rw [hr]
          simp only [exceptBind_ok]
          rw [hp]
          rfl
        rw [hh] at h
        obtain ⟨hpi, hpr, _⟩ := populateIdentity_inv h
        exact ⟨hpi.trans rfl, hpr.trans rfl⟩

/-- Witness for C8 at the Scenario B email. -/
theorem populateIdentity_frame_witness :
    (∃ r', populateIdentity sampleResponse = .ok r' ∧
        r'.providerInfo = sampleResponse.providerInfo ∧
        r'.profile = sampleResponse.profile)
    ∧ (∀ u resp rt, handler u = .ok (resp, rt) →
        ∃ cr, u.codeExchange = .ok cr ∧
          resp.providerInfo =
            { idToken := cr.params.id_token, accessToken := cr.accessToken,
              scope := cr.params.scope, expiresInSeconds := cr.params.expires_in } ∧
          resp.profile = makeProfileInfo cr.rawProfile cr.params.id_token)
    ∧ (∀ u tok scope resp, refresh u tok scope = .ok resp →
        ∃ rr raw, u.refreshTokenExchange tok scope = .ok rr ∧
          u.userProfileFetch rr.accessToken rr.params.id_token = .ok raw ∧
          resp.providerInfo =
            { accessToken := rr.accessToken, idToken := rr.params.id_token,
              expiresInSeconds := rr.params.expires_in, scope := rr.params.scope } ∧
          resp.profile = makeProfileInfo raw rr.params.id_token) :=
  populateIdentity_frame sampleResponse "alice@example.com" rfl (by decide)

theorem handler_error_of_exchange {u : Upstream} {err : AuthError}
    (hx : u.codeExchange = .error err) : handler u = .error err := by
  unfold handler executeFrameHandlerStrategy
  rw [hx]
  rfl

theorem handler_eq_map (u : Upstream) (cr : CodeExchangeResult)
    (hx : u.codeExchange = .ok cr) :
    handler u =
      (populateIdentity (verifyCallback cr.accessToken cr.refreshToken
        cr.params cr.rawProfile).1).map fun resp => (resp, cr.refreshToken) := by
  unfold handler executeFrameHandlerStrategy
  rw [hx]
  simp only [exceptBind_ok]
  cases populateIdentity (verifyCallback cr.accessToken cr.refreshToken
    cr.params cr.rawProfile).1 <;> rfl

theorem handler_ok_inv {u : Upstream} {p : OAuthResponse × Option String}
    (h : handler u = .ok p) :
    ∃ cr R, u.codeExchange = .ok cr ∧
      populateIdentity (verifyCallback cr.accessToken cr.refreshToken
        cr.params cr.rawProfile).1 = .ok R ∧ p = (R, cr.refreshToken) := by
  cases hx : u.codeExchange with
  | error err =>
    rw [handler_error_of_exchange hx] at h
    exact absurd h (by simp)
  | ok cr =>
    obtain ⟨R, hps⟩ : ∃ R, populateIdentity (verifyCallback cr.accessToken
        cr.refreshToken cr.params cr.rawProfile).1 = .ok R := by
      cases hq : populateIdentity (verifyCallback cr.accessToken
          cr.refreshToken cr.params cr.rawProfile).1 with
      | error err =>
        rw [handler_eq_map u cr hx, hq] at h
        exact absurd h (by simp [Except.map])
      | ok R => exact ⟨R, rfl⟩
    rw [handler_eq_map u cr hx, hps] at h
    simp only [Except.map] at h
    exact ⟨cr, R, rfl, hps, (Except.ok.inj h).symm⟩

/-- C5: a refresh token returned by `handler`, fed into `refresh` while the
upstream profile is unchanged (the profile fetch returns a profile with the
same email), yields an OAuthResponse whose profile email equals that of the original
transaction. -/
theorem handler_refresh_roundtrip (u : Upstream) (resp : OAuthResponse)
    (rt scope : String) (rr : RefreshTokenResult) (raw : RawProfile)
    (hh : handler u = .ok (resp, some rt))
    (hr : u.refreshTokenExchange rt scope = .ok rr)
    (hp : u.userProfileFetch rr.accessToken rr.params.id_token = .ok raw)
    (hsame : raw.email = resp.profile.email) :
    ∃ resp', refresh u rt scope = .ok resp' ∧
      resp'.profile.email = resp.profile.email := by
  obtain ⟨cr, R, hx, hps, hpq⟩ := handler_ok_inv hh
  have hR : resp = R := congrArg Prod.fst hpq
  obtain ⟨-, hpr, e, hee, hne, -⟩ := populateIdentity_inv hps
  have hre : resp.profile.email = some e := by
    rw [hR, hpr]
    exact hee
  have hY : (makeProfileInfo raw rr.params.id_token).email = some e :=
    hsame.trans hre
  refine ⟨{ providerInfo :=
              { accessToken := rr.accessToken
                idToken := rr.params.id_token
                expiresInSeconds := rr.params.expires_in
                scope := rr.params.scope }
            profile := makeProfileInfo raw rr.params.id_token
            backstageIdentity := some { id := emailLocalPart e } }, ?_, ?_⟩
  · unfold refresh executeRefreshTokenStrategy executeFetchUserProfileStrategy
    rw [hr]
    simp only [exceptBind_ok]
    rw [hp]
    simp only [exceptBind_ok]
    exact populateIdentity_ok _ e hY hne
  · exact hsame

/-- Witness for C5 at the sample transaction. -/
theorem handler_refresh_roundtrip_witness :
    ∃ resp', refresh sampleUpstream "R" "read" = .ok resp' ∧
      resp'.profile.email = sampleHandlerResponse.profile.email :=
  handler_refresh_roundtrip sampleUpstream sampleHandlerResponse "R" "read"
    { accessToken := "T2", params := scenarioBParams } scenarioBRawProfile
    rfl rfl rfl rfl

/-- C4: `refresh` never surfaces a refresh token: its OAuthResponse has no
refresh-token field and its value is independent of the refresh-token data
the token endpoint returns; only `handler` returns one, as a component
separate from its OAuthResponse (on which the response does not depend). -/
theorem refresh_returns_no_refresh_token :
    (∀ u x refreshToken scope,
        refresh (withRefreshParamToken u x) refreshToken scope =
          refresh u refreshToken scope)
    ∧ (∀ u x, (handler (withCodeRefreshToken u x)).map Prod.fst =
        (handler u).map Prod.fst)
    ∧ ∀ u r p, u.codeExchange = .ok r → handler u = .ok p →
        p.2 = r.refreshToken := by
  refine ⟨?_, ?_, ?_⟩
  · intro u x refreshToken scope
    have key : (withRefreshParamToken u x).refreshTokenExchange refreshToken scope =
        (u.refreshTokenExchange refreshToken scope).map fun r =>
          { r with params := { r.params with refresh_token := x } } := rfl
    unfold refresh executeRefreshTokenStrategy
    rw [key]
    cases hr : u.refreshTokenExchange refreshToken scope <;> rfl
  · intro u x
    have key : (withCodeRefreshToken u x).codeExchange =
        u.codeExchange.map fun r => { r with refreshToken := x } := rfl
    cases hx : u.codeExchange with
    | error err =>
      rw [handler_error_of_exchange (u := withCodeRefreshToken u x)
            (by rw [key, hx]; rfl),
          handler_error_of_exchange hx]
    | ok cr =>
      rw [handler_eq_map u cr hx,
          handler_eq_map (withCodeRefreshToken u x) { cr with refreshToken := x }
            (by rw [key, hx]; rfl)]
      have hvc : (verifyCallback ({ cr with refreshToken := x }).accessToken
            ({ cr with refreshToken := x }).refreshToken
            ({ cr with refreshToken := x }).params
            ({ cr with refreshToken := x }).rawProfile).1 =
          (verifyCallback cr.accessToken cr.refreshToken cr.params
            cr.rawProfile).1 := rfl
      rw [hvc]
      cases populateIdentity (verifyCallback cr.accessToken cr.refreshToken
        cr.params cr.rawProfile).1 <;> rfl
  · intro u r p hx hp
    rw [handler_eq_map u r hx] at hp
    obtain ⟨R, hq⟩ : ∃ R, populateIdentity (verifyCallback r.accessToken
        r.refreshToken r.params r.rawProfile).1 = .ok R := by
      cases hq : populateIdentity (verifyCallback r.accessToken
          r.refreshToken r.params r.rawProfile).1 with
      | error err =>
        rw [hq] at hp
        exact absurd hp (by simp [Except.map])
      | ok R => exact ⟨R, rfl⟩
    rw [hq] at hp
    simp only [Except.map] at hp
    rw [← Except.ok.inj hp]

/-- Witness for C4 at the sample transaction. -/
theorem refresh_returns_no_refresh_token_witness :
    refresh (withRefreshParamToken sampleUpstream (some "other")) "R" "read" =
        refresh sampleUpstream "R" "read"
    ∧ (handler (withCodeRefreshToken sampleUpstream none)).map Prod.fst =
        (handler sampleUpstream).map Prod.fst
    ∧ (sampleHandlerResponse, some "R").2 = some "R" := by
  obtain ⟨h1, h2, h3⟩ := refresh_returns_no_refresh_token
  refine ⟨h1 sampleUpstream (some "other") "R" "read",
    h2 sampleUpstream none, ?_⟩
  exact h3 sampleUpstream
    { accessToken := "T", refreshToken := some "R", params := scenarioBParams,
      rawProfile := scenarioBRawProfile }
    (sampleHandlerResponse, some "R") rfl rfl

theorem jsGet_append (l₁ l₂ : List (String × String)) (k : String) :
    jsGet (l₁ ++ l₂) k =
      match jsGet l₂ k with
      | some v => some v
      | none => jsGet l₁ k := by
  induction l₁ with
  | nil =>
    rw [List.nil_append]
    cases h : jsGet l₂ k <;> simp [jsGet, h]
  | cons p rest ih =>
    rw [List.cons_append]
    show (match jsGet (rest ++ l₂) k with
      | some v => some v
      | none => if p.1 = k then some p.2 else none) = _
    rw [ih]
    cases h2 : jsGet l₂ k with
    | none =>
      cases hr : jsGet rest k <;> simp [jsGet, hr]
    | some v => rfl

/-- C2: for every provider configuration and caller options, the redirect
produced by `start` carries the parameters `access_type=offline` and
`prompt=consent`, and these fixed values win over caller-supplied options of
the same name; in particular the Scenario A `start` with `{scope: "read"}` and
client id `c1` yields parameters containing `client_id=c1`, `scope=read`,
`access_type=offline` and `prompt=consent`. -/
theorem start_fixed_params (opts : OAuth2AuthProviderOptions)
    (options : List (String × String)) :
    jsGet (startParams opts options) "access_type" = some "offline"
    ∧ jsGet (startParams opts options) "prompt" = some "consent"
    ∧ ("access_type", "offline") ∈ startParams opts options
    ∧ ("prompt", "consent") ∈ startParams opts options
    ∧ ("client_id", opts.clientId) ∈ startParams opts options
    ∧ (start opts options).url
        = opts.authorizationUrl ++ "?" ++ serializeParams (startParams opts options)
    ∧ ("client_id", "c1") ∈ startParams scenarioAConfig [("scope", "read")]
    ∧ ("scope", "read") ∈ startParams scenarioAConfig [("scope", "read")]
    ∧ jsGet (startParams scenarioAConfig [("scope", "read")]) "access_type"
        = some "offline"
    ∧ jsGet (startParams scenarioAConfig [("scope", "read")]) "prompt"
        = some "consent" := by
  have hsplit : startParams opts options
      = [("client_id", opts.clientId), ("redirect_uri", opts.callbackUrl),
          ("response_type", "code")]
        ++ (options.map (fun p => (wireKey p.1, p.2))
            ++ [("access_type", "offline"), ("prompt", "consent")]) := by
    unfold startParams redirectParams providerOptions
    rw [List.map_append]
    rfl
  refine ⟨?_, ?_, ?_, ?_, ?_, rfl, by decide, by decide, by decide, by decide⟩
  · rw [hsplit, jsGet_append, jsGet_append]
    rfl
  · rw [hsplit, jsGet_append, jsGet_append]
    rfl
  · rw [hsplit]
    simp
  · rw [hsplit]
    simp
  · rw [hsplit]
    simp

/-- C7: the factory reads the four required string fields from the
per-provider environment config and computes the adapter callback URL as
the global base URL, a slash, the provider id `oauth2`, and
`/handler/frame`. -/
theorem createOAuth2Provider_callbackUrl (config : AuthProviderConfig)
    (env : String) (envConfig : ConfigMap) (cid cs au tu : String)
    (h1 : envConfig "clientId" = some cid)
    (h2 : envConfig "clientSecret" = some cs)
    (h3 : envConfig "authorizationUrl" = some au)
    (h4 : envConfig "tokenUrl" = some tu) :
    createOAuth2Provider config env envConfig = .ok
      { clientId := cid
        clientSecret := cs
        callbackUrl := config.baseUrl ++ "/" ++ "oauth2" ++ "/handler/frame"
        authorizationUrl := au
        tokenUrl := tu } := by
  have g1 : getString envConfig "clientId" = .ok cid := by
    unfold getString
    rw [h1]
  have g2 : getString envConfig "clientSecret" = .ok cs := by
    unfold getString
    rw [h2]
  have g3 : getString envConfig "authorizationUrl" = .ok au := by
    unfold getString
    rw [h3]
  have g4 : getString envConfig "tokenUrl" = .ok tu := by
    unfold getString
    rw [h4]
  unfold createOAuth2Provider
  rw [g1]
  simp only [exceptBind_ok]
  rw [g2]
  simp only [exceptBind_ok]
  rw [g3]
  simp only [exceptBind_ok]
  rw [g4]
  simp only [exceptBind_ok]

/-- Witness for C7 at the sample configuration. -/
theorem createOAuth2Provider_callbackUrl_witness :
    createOAuth2Provider { baseUrl := "https://backstage" } "development"
        sampleEnvConfig = .ok
      { clientId := "c1"
        clientSecret := "cs"
        callbackUrl := "https://backstage/oauth2/handler/frame"
        authorizationUrl := "https://idp/auth"
        tokenUrl := "https://idp/token" } :=
  createOAuth2Provider_callbackUrl { baseUrl := "https://backstage" }
    "development" sampleEnvConfig "c1" "cs" "https://idp/auth"
    "https://idp/token" rfl rfl rfl rfl

end Backstage
